import Mathlib

/-!
Verification of the switch port-configuration service (`server.py`).

The service has two parts:
* a pure template engine `generate_port_config` mapping a port name and a
  role (`config_type`) to Cisco interface-configuration text, built as a
  list of lines joined by newlines;
* a port registry backed by a document store, modelled here as a list of
  `PortConfig` records with explicit surrogate ids and timestamps passed in.

All definitions are shallow embeddings of the Python source; theorems below
settle the specification claims against them.
-/

namespace SwitchConfig

/-- The body lines for role `data_voice` (source lines 72-97). -/
def dataVoiceBody : List String :=
  ["description // Data and Voice //",
   "switchport mode access",
   "switchport access vlan 6",
   "switchport voice vlan 4",
   "auto qos voip cisco-phone",
   "switchport port-security",
   "switchport port-security maximum 3",
   "switchport port-security violation restrict",
   "switchport port-security aging time 1",
   "switchport port-security aging type inactivity",
   "switchport nonegotiate",
   "ip dhcp snooping limit rate 15",
   "ip arp inspection limit rate 15",
   "spanning-tree portfast",
   "spanning-tree bpduguard enable",
   "device-tracking attach-policy MERAKI_POLICY",
   "ip flow monitor MERAKI_AVC_IPV4 input",
   "ip flow monitor MERAKI_AVC_IPV4 output",
   "ipv6 flow monitor MERAKI_AVC_IPV6 input",
   "ipv6 flow monitor MERAKI_AVC_IPV6 output",
   "shutdown",
   "no shutdown",
   "exit"]

/-- The body lines for role `camera` (source lines 99-113). -/
def cameraBody : List String :=
  ["description // Camera //",
   "switchport mode access",
   "switchport access vlan 5",
   "spanning-tree portfast",
   "device-tracking attach-policy MERAKI_POLICY",
   "ip flow monitor MERAKI_AVC_IPV4 input",
   "ip flow monitor MERAKI_AVC_IPV4 output",
   "ipv6 flow monitor MERAKI_AVC_IPV6 input",
   "ipv6 flow monitor MERAKI_AVC_IPV6 output",
   "shutdown",
   "no shutdown",
   "exit"]

/-- The body lines for role `trunk_wap` (source lines 115-132). -/
def trunkWapBody : List String :=
  ["description // TrunkportforWAP //",
   "switchport mode trunk",
   "switchport trunk native vlan 25",
   "switchport trunk allowed vlan 25,4,8,16,20,30,32",
   "switchport nonegotiate",
   "ip dhcp snooping trust",
   "ip arp inspection trust",
   "device-tracking attach-policy MERAKI_POLICY",
   "ip flow monitor MERAKI_AVC_IPV4 input",
   "ip flow monitor MERAKI_AVC_IPV4 output",
   "ipv6 flow monitor MERAKI_AVC_IPV6 input",
   "ipv6 flow monitor MERAKI_AVC_IPV6 output",
   "shutdown",
   "no shutdown",
   "exit"]

/-- The body lines for role `vape_sensor` (source lines 134-148). -/
def vapeSensorBody : List String :=
  ["description // Vape_Sensor //",
   "switchport mode access",
   "switchport access vlan 30",
   "spanning-tree portfast",
   "device-tracking attach-policy MERAKI_POLICY",
   "ip flow monitor MERAKI_AVC_IPV4 input",
   "ip flow monitor MERAKI_AVC_IPV4 output",
   "ipv6 flow monitor MERAKI_AVC_IPV6 input",
   "ipv6 flow monitor MERAKI_AVC_IPV6 output",
   "shutdown",
   "no shutdown",
   "exit"]

/-- The body lines for role `trunk_switch` (source lines 150-165). -/
def trunkSwitchBody : List String :=
  ["description // TrunkportforSwitch //",
   "switchport mode trunk",
   "switchport nonegotiate",
   "ip dhcp snooping trust",
   "ip arp inspection trust",
   "device-tracking attach-policy MERAKI_POLICY",
   "ip flow monitor MERAKI_AVC_IPV4 input",
   "ip flow monitor MERAKI_AVC_IPV4 output",
   "ipv6 flow monitor MERAKI_AVC_IPV6 input",
   "ipv6 flow monitor MERAKI_AVC_IPV6 output",
   "shutdown",
   "no shutdown",
   "exit"]

/-- The body lines for role `door_system` (source lines 167-178); no trailer. -/
def doorSystemBody : List String :=
  ["description // DoorSystem //",
   "switchport mode access",
   "switchport access vlan 30",
   "spanning-tree portfast",
   "device-tracking attach-policy MERAKI_POLICY",
   "ip flow monitor MERAKI_AVC_IPV4 input",
   "ip flow monitor MERAKI_AVC_IPV4 output",
   "ipv6 flow monitor MERAKI_AVC_IPV6 input",
   "ipv6 flow monitor MERAKI_AVC_IPV6 output"]

/-- The body lines for role `algo_bell` (source lines 180-191); no trailer. -/
def algoBellBody : List String :=
  ["description // Algo 8301 IP Paging //",
   "switchport access vlan 6",
   "switchport mode access",
   "device-tracking attach-policy MERAKI_POLICY",
   "ip flow monitor IPv4_NETFLOW input",
   "ip flow monitor MERAKI_AVC_IPV4 output",
   "ipv6 flow monitor MERAKI_AVC_IPV6 input",
   "ipv6 flow monitor MERAKI_AVC_IPV6 output",
   "spanning-tree portfast"]

/-- The body lines for role `voip_server` (source lines 193-209). -/
def voipServerBody : List String :=
  ["description // VoIP_Server //",
   "switchport mode trunk",
   "switchport trunk allowed vlan 250,4",
   "spanning-tree portfast",
   "ip dhcp snooping trust",
   "ip arp inspection trust",
   "device-tracking attach-policy MERAKI_POLICY",
   "ip flow monitor MERAKI_AVC_IPV4 input",
   "ip flow monitor MERAKI_AVC_IPV4 output",
   "ipv6 flow monitor MERAKI_AVC_IPV6 input",
   "ipv6 flow monitor MERAKI_AVC_IPV6 output",
   "shutdown",
   "no shutdown",
   "exit"]

/-- The body lines for role `camera_server` (source lines 211-224); no trailer. -/
def cameraServerBody : List String :=
  ["description // NVR Server //",
   "switchport access vlan 5",
   "switchport mode access",
   "ip dhcp snooping trust",
   "ip arp inspection trust",
   "spanning-tree portfast",
   "device-tracking attach-policy MERAKI_POLICY",
   "ip flow monitor MERAKI_AVC_IPV4 input",
   "ip flow monitor MERAKI_AVC_IPV4 output",
   "ipv6 flow monitor MERAKI_AVC_IPV6 input",
   "ipv6 flow monitor MERAKI_AVC_IPV6 output"]

/-- The body lines for role `student_vlan8` (source lines 226-251). -/
def studentVlan8Body : List String :=
  ["description // Student_VLAN //",
   "switchport mode access",
   "switchport access vlan 8",
   "switchport voice vlan 4",
   "auto qos voip cisco-phone",
   "switchport port-security",
   "switchport port-security maximum 3",
   "switchport port-security violation restrict",
   "switchport port-security aging time 1",
   "switchport port-security aging type inactivity",
   "switchport nonegotiate",
   "ip dhcp snooping limit rate 15",
   "ip arp inspection limit rate 15",
   "spanning-tree portfast",
   "spanning-tree bpduguard enable",
   "device-tracking attach-policy MERAKI_POLICY",
   "ip flow monitor MERAKI_AVC_IPV4 input",
   "ip flow monitor MERAKI_AVC_IPV4 output",
   "ipv6 flow monitor MERAKI_AVC_IPV6 input",
   "ipv6 flow monitor MERAKI_AVC_IPV6 output",
   "shutdown",
   "no shutdown",
   "exit"]

/-- The body lines for role `printer` (source lines 253-271). -/
def printerBody : List String :=
  ["description // Printer //",
   "switchport mode access",
   "switchport access vlan 6",
   "ip dhcp snooping trust",
   "ip arp inspection trust",
   "switchport voice vlan 4",
   "auto qos voip cisco-phone",
   "spanning-tree portfast",
   "device-tracking attach-policy MERAKI_POLICY",
   "ip flow monitor MERAKI_AVC_IPV4 input",
   "ip flow monitor MERAKI_AVC_IPV4 output",
   "ipv6 flow monitor MERAKI_AVC_IPV6 input",
   "ipv6 flow monitor MERAKI_AVC_IPV6 output",
   "shutdown",
   "no shutdown",
   "exit"]

/-- The body lines for role `management` (source lines 273-287); no trailer. -/
def managementBody : List String :=
  ["description // Management //",
   "switchport mode access",
   "switchport access vlan 2",
   "ip dhcp snooping trust",
   "ip arp inspection trust",
   "spanning-tree portfast",
   "spanning-tree bpduguard enable",
   "device-tracking attach-policy MERAKI_POLICY",
   "ip flow monitor MERAKI_AVC_IPV4 input",
   "ip flow monitor MERAKI_AVC_IPV4 output",
   "ipv6 flow monitor MERAKI_AVC_IPV6 input",
   "ipv6 flow monitor MERAKI_AVC_IPV6 output"]

/-- The body lines for role `pos_machine` (source lines 289-303). -/
def posMachineBody : List String :=
  ["description // POS_Machine //",
   "switchport mode access",
   "switchport access vlan 150",
   "switchport voice vlan 4",
   "device-tracking attach-policy MERAKI_POLICY",
   "ip flow monitor MERAKI_AVC_IPV4 input",
   "ip flow monitor MERAKI_AVC_IPV4 output",
   "ipv6 flow monitor MERAKI_AVC_IPV6 input",
   "ipv6 flow monitor MERAKI_AVC_IPV6 output",
   "shutdown",
   "no shutdown",
   "exit"]

/-- The body lines for role `hyperv` (source lines 305-320). -/
def hypervBody : List String :=
  ["description // Hyper-V //",
   "switchport mode trunk",
   "no switchport trunk allowed vlan",
   "ip dhcp snooping trust",
   "ip arp inspection trust",
   "device-tracking attach-policy MERAKI_POLICY",
   "ip flow monitor MERAKI_AVC_IPV4 input",
   "ip flow monitor MERAKI_AVC_IPV4 output",
   "ipv6 flow monitor MERAKI_AVC_IPV6 input",
   "ipv6 flow monitor MERAKI_AVC_IPV6 output",
   "shutdown",
   "no shutdown",
   "exit"]

/-- The `elif` chain of `generate_port_config` (source lines 72-320): the body
lines appended after the header for a recognized role, `[]` otherwise. -/
def roleBody (config_type : String) : List String :=
  if config_type = "data_voice" then dataVoiceBody
  else if config_type = "camera" then cameraBody
  else if config_type = "trunk_wap" then trunkWapBody
  else if config_type = "vape_sensor" then vapeSensorBody
  else if config_type = "trunk_switch" then trunkSwitchBody
  else if config_type = "door_system" then doorSystemBody
  else if config_type = "algo_bell" then algoBellBody
  else if config_type = "voip_server" then voipServerBody
  else if config_type = "camera_server" then cameraServerBody
  else if config_type = "student_vlan8" then studentVlan8Body
  else if config_type = "printer" then printerBody
  else if config_type = "management" then managementBody
  else if config_type = "pos_machine" then posMachineBody
  else if config_type = "hyperv" then hypervBody
  else []

/-- The `lines` list built by `generate_port_config` (source lines 53-322):
the `reset` special case, then the two-line header for every non-`none`
type, then the role body from the `elif` chain. -/
def generate_port_config_lines (port_name config_type : String) : List String :=
  if config_type = "reset" then
    ["interface " ++ port_name, "shutdown", "no shutdown", "exit", "!"]
  else
    (if config_type ≠ "none" then
      ["default interface " ++ port_name, "interface " ++ port_name]
     else []) ++ roleBody config_type

/-- Embeds `generate_port_config` (source line 322): the lines joined by newlines. -/
def generate_port_config (port_name config_type : String) : String :=
  String.intercalate "\n" (generate_port_config_lines port_name config_type)

/-- The role names handled by the `elif` chain, in source order. -/
def roleCatalog : List String :=
  ["data_voice", "camera", "trunk_wap", "vape_sensor", "trunk_switch",
   "door_system", "algo_bell", "voip_server", "camera_server",
   "student_vlan8", "printer", "management", "pos_machine", "hyperv"]

/-- The roles whose body does not end with the shutdown / no shutdown / exit
trailer (they leave the interface context open). -/
def noTrailerRoles : List String :=
  ["door_system", "algo_bell", "camera_server", "management"]

example : generate_port_config "Gi1/0/1" "reset" =
    "interface Gi1/0/1\nshutdown\nno shutdown\nexit\n!" := by decide

example : generate_port_config "Gi1/0/1" "none" = "" := by decide

example : generate_port_config_lines "p" "foo" =
    ["default interface p", "interface p"] := by decide

example : (generate_port_config_lines "p" "algo_bell").getLast? =
    some "spanning-tree portfast" := by decide

/-! ## The port registry

The Mongo collection `port_configs` is modelled as a list of records in
storage order.  Surrogate ids and timestamps, produced in the source by
`uuid.uuid4()` and `datetime.utcnow()`, are explicit parameters.  -/

/-- The persisted `PortConfig` entity (source lines 30-38). -/
structure PortConfig where
  id : Nat
  switch_number : Int
  port_type : String
  port_name : String
  config_type : String
  description : Option String
  created_at : Nat
  updated_at : Nat
deriving DecidableEq, Repr

/-- Request body of the create endpoint (source lines 40-45). -/
structure PortConfigCreate where
  switch_number : Int
  port_type : String
  port_name : String
  config_type : String
  description : Option String
deriving DecidableEq, Repr

/-- Request body of the update endpoint (source lines 47-49). -/
structure PortConfigUpdate where
  config_type : String
  description : Option String
deriving DecidableEq, Repr

/-- The document store: records in storage order. -/
abbrev Registry := List PortConfig

/-- The natural-key filter `{"port_name": pn, "switch_number": sn}` used by
the create, get and update endpoints. -/
def natKeyMatches (r : PortConfig) (pn : String) (sn : Int) : Bool :=
  r.port_name = pn && r.switch_number = sn

/-- Mongo `update_one(filter, {"$set": full document}, upsert=True)`: replace
every field of the first record matching the natural key, or insert the new
document when none matches. -/
def upsertByKey : Registry → String → Int → PortConfig → Registry
  | [], _, _, obj => [obj]
  | r :: rs, pn, sn, obj =>
      if natKeyMatches r pn sn then obj :: rs
      else r :: upsertByKey rs pn sn obj

/-- Embeds `create_port_config` (source lines 331-340): build a full `PortConfig`
with a fresh id and current timestamps, upsert it on the natural key, and
return the built object. -/
def create_port_config (reg : Registry) (port : PortConfigCreate)
    (freshId now : Nat) : Registry × PortConfig :=
  let obj : PortConfig :=
    { id := freshId
      switch_number := port.switch_number
      port_type := port.port_type
      port_name := port.port_name
      config_type := port.config_type
      description := port.description
      created_at := now
      updated_at := now }
  (upsertByKey reg port.port_name port.switch_number obj, obj)

/-- Mongo `find_one(filter)` on the natural key (source lines 366-369). -/
def findOneByKey (reg : Registry) (pn : String) (sn : Int) : Option PortConfig :=
  reg.find? (fun r => natKeyMatches r pn sn)

/-- The `$set` document of the update endpoint (source lines 376-381):
overwrite `config_type`, `description` and `updated_at` only. -/
def applyUpdate (r : PortConfig) (u : PortConfigUpdate) (now : Nat) : PortConfig :=
  { r with config_type := u.config_type
           description := u.description
           updated_at := now }

/-- Mongo `update_one(filter, {"$set": ...})` without upsert: modify the
first record matching the natural key.  Returns the new registry and
`modified_count`, which Mongo reports as `0` when no record matched *or*
when the `$set` left the matched document unchanged. -/
def updateOneByKey : Registry → String → Int → PortConfigUpdate → Nat →
    Registry × Nat
  | [], _, _, _, _ => ([], 0)
  | r :: rs, pn, sn, u, now =>
      if natKeyMatches r pn sn then
        (applyUpdate r u now :: rs, if applyUpdate r u now = r then 0 else 1)
      else
        (r :: (updateOneByKey rs pn sn u now).1,
         (updateOneByKey rs pn sn u now).2)

/-- Embeds `update_port_config` (source lines 374-388): `$set` the update fields
plus a fresh `updated_at`; raise 404 "Port not found" when
`modified_count == 0`; otherwise re-fetch and return the record. -/
def update_port_config (reg : Registry) (pn : String) (sn : Int)
    (u : PortConfigUpdate) (now : Nat) :
    Registry × Except String PortConfig :=
  let res := updateOneByKey reg pn sn u now
  if res.2 = 0 then (reg, Except.error "Port not found")
  else
    match findOneByKey res.1 pn sn with
    | some p => (res.1, Except.ok p)
    | none => (res.1, Except.error "Port not found")

/-- Embeds `get_port_configs` (source lines 342-362): filter on the optional
`switch_number` / `port_type` parameters, capped at 1000 records. -/
def get_port_configs (reg : Registry) (sn : Option Int) (pt : Option String) :
    List PortConfig :=
  (reg.filter (fun r =>
    (match sn with | none => true | some n => r.switch_number = n) &&
    (match pt with | none => true | some t => r.port_type = t))).take 1000

/-- Embeds `reset_all_ports` (source lines 390-396): `delete_many` on the optional
`switch_number` filter; returns the new registry and the deleted count. -/
def reset_all_ports (reg : Registry) (sn : Option Int) : Registry × Nat :=
  let matches' : PortConfig → Bool := fun r =>
    match sn with | none => true | some n => r.switch_number = n
  (reg.filter (fun r => !(matches' r)), (reg.filter matches').length)

/-- The fetch of `generate_cisco_code` (source lines 402-405):
`find({"switch_number": sn, "port_type": pt}).to_list(1000)`. -/
def fetchPorts (reg : Registry) (sn : Int) (pt : String) : List PortConfig :=
  (reg.filter (fun r => r.switch_number = sn && r.port_type = pt)).take 1000

/-- The `code_lines` list built by the loop of `generate_cisco_code`
(source lines 410-420): skip `none` records, render the rest, and append
each non-empty rendering followed by an empty separator line. -/
def codeLinesStep (acc : List String) (p : PortConfig) : List String :=
  if p.config_type = "none" then acc
  else
    let cfg := generate_port_config p.port_name p.config_type
    if cfg ≠ "" then acc ++ [cfg, ""] else acc

def codeLines (ports : List PortConfig) : List String :=
  ports.foldl codeLinesStep []

/-- Embeds `generate_cisco_code` (source lines 399-422): fetch the matching ports;
with no match return the sentinel comment and count 0, otherwise the joined
`code_lines` and the number of fetched ports. -/
def generate_cisco_code (reg : Registry) (sn : Int) (pt : String) :
    String × Nat :=
  let ports := fetchPorts reg sn pt
  if ports.isEmpty then ("! No configured ports found", 0)
  else (String.intercalate "\n" (codeLines ports), ports.length)

/-! ## Helper lemmas -/

/-- A string with a non-empty left part is non-empty. -/
lemma append_left_ne_empty (a b : String) (h : a ≠ "") : a ++ b ≠ "" := by
  intro hab
  apply h
  apply String.ext
  have hd := congrArg String.data hab
  rw [String.data_append] at hd
  exact (List.append_eq_nil.mp hd).1

/-- A role name outside the catalog reaches the final `else` of the
`elif` chain, contributing no body lines. -/
lemma roleBody_eq_nil (ct : String) (h : ct ∉ roleCatalog) : roleBody ct = [] := by
  simp only [roleCatalog, List.mem_cons, List.not_mem_nil, or_false, not_or] at h
  obtain ⟨h1, h2, h3, h4, h5, h6, h7, h8, h9, h10, h11, h12, h13, h14⟩ := h
  simp [roleBody, h1, h2, h3, h4, h5, h6, h7, h8, h9, h10, h11, h12, h13, h14]

/-- Joining two lines inserts a single separator. -/
lemma intercalate_pair (s a b : String) : String.intercalate s [a, b] = a ++ s ++ b := rfl

/-- Predicate: the string `l` starts with the prefix `pre`, character-wise. -/
def lineStartsWith (l pre : String) : Prop := pre.data <+: l.data

instance (l pre : String) : Decidable (lineStartsWith l pre) :=
  inferInstanceAs (Decidable (pre.data <+: l.data))

/-- Lists with different heads are not prefix-related. -/
lemma cons_not_prefix_cons {a b : Char} {l1 l2 : List Char} (h : a ≠ b) :
    ¬ (a :: l1 <+: b :: l2) := by
  rintro ⟨t, ht⟩
  simp only [List.cons_append, List.cons.injEq] at ht
  exact h ht.1

/-- An `interface <p>` line is neither a description line nor a
`switchport` (VLAN-assigning) line, for every port name `p`. -/
lemma interface_line_not_descr_vlan (p : String) :
    ¬ lineStartsWith ("interface " ++ p) "description" ∧
    ¬ lineStartsWith ("interface " ++ p) "switchport" := by
  have h2 : ("interface " : String).data = 'i' :: "nterface ".data := by decide
  constructor
  · unfold lineStartsWith
    have h1 : ("description" : String).data = 'd' :: "escription".data := by decide
    rw [String.data_append, h1, h2, List.cons_append]
    exact cons_not_prefix_cons (by decide)
  · unfold lineStartsWith
    have h1 : ("switchport" : String).data = 's' :: "witchport".data := by decide
    rw [String.data_append, h1, h2, List.cons_append]
    exact cons_not_prefix_cons (by decide)

/-! ## Claims about the template engine -/

/-- C1 (amended): for every recognized role other than `reset`/`none`, the
output starts with exactly the two header lines, and exactly the roles
`door_system`, `algo_bell`, `camera_server` and `management` omit the
bounce-and-exit trailer (their output never ends with an `exit` line),
while every other recognized role's output ends with the fixed three-line
`shutdown` / `no shutdown` / `exit` trailer. -/
theorem header_and_trailer_per_role (p ct : String) (h : ct ∈ roleCatalog) :
    (generate_port_config_lines p ct).take 2 =
      ["default interface " ++ p, "interface " ++ p] ∧
    (ct ∈ noTrailerRoles →
      (generate_port_config_lines p ct).getLast? ≠ some "exit") ∧
    (ct ∉ noTrailerRoles →
      (generate_port_config_lines p ct).drop
        ((generate_port_config_lines p ct).length - 3) =
        ["shutdown", "no shutdown", "exit"]) := by
  fin_cases h <;>
    refine ⟨?_, ?_, ?_⟩ <;>
      simp [generate_port_config_lines, roleBody, noTrailerRoles,
        dataVoiceBody, cameraBody, trunkWapBody, vapeSensorBody,
        trunkSwitchBody, doorSystemBody, algoBellBody, voipServerBody,
        cameraServerBody, studentVlan8Body, printerBody, managementBody,
        posMachineBody, hypervBody]

/-- C1 counterexample: `algo_bell` is a recognized role outside
{door_system, management, camera_server}, yet its output does not end with
the shutdown / no shutdown / exit trailer — it ends with
`spanning-tree portfast`. -/
theorem trailer_claim_fails_on_algo_bell :
    "algo_bell" ∈ roleCatalog ∧
    "algo_bell" ∉ (["door_system", "management", "camera_server"] : List String) ∧
    (generate_port_config_lines "Gi1/0/1" "algo_bell").getLast? =
      some "spanning-tree portfast" ∧
    ¬ (generate_port_config_lines "Gi1/0/1" "algo_bell").drop
        ((generate_port_config_lines "Gi1/0/1" "algo_bell").length - 3) =
        ["shutdown", "no shutdown", "exit"] := by decide

/-- Witness for C1 at role `camera` and port `Gi1/0/1`. -/
theorem header_and_trailer_per_role_witness :
    "camera" ∈ roleCatalog ∧
    (generate_port_config_lines "Gi1/0/1" "camera").take 2 =
      ["default interface Gi1/0/1", "interface Gi1/0/1"] ∧
    (generate_port_config_lines "Gi1/0/1" "camera").drop
      ((generate_port_config_lines "Gi1/0/1" "camera").length - 3) =
      ["shutdown", "no shutdown", "exit"] := by
  have h := header_and_trailer_per_role "Gi1/0/1" "camera" (by decide)
  exact ⟨by decide, h.1, h.2.2 (by decide)⟩

/-- C2 counterexample: an unrecognized, non-special role does not render
the empty string. -/
theorem unrecognized_role_not_empty_cex :
    "foo" ∉ roleCatalog ∧ "foo" ≠ "reset" ∧ "foo" ≠ "none" ∧
    generate_port_config "Gi1/0/1" "foo" ≠ "" := by decide

/-- C2 (amended): for every port name `p` and unrecognized non-special
`config_type`, `render` returns the non-empty two-line header
`default interface <p>` / `interface <p>` instead of the empty string. -/
theorem unrecognized_role_renders_header_string (p ct : String)
    (hcat : ct ∉ roleCatalog) (hr : ct ≠ "reset") (hn : ct ≠ "none") :
    generate_port_config p ct =
      "default interface " ++ p ++ "\n" ++ ("interface " ++ p) ∧
    generate_port_config p ct ≠ "" := by
  have hlines : generate_port_config_lines p ct =
      ["default interface " ++ p, "interface " ++ p] := by
    simp [generate_port_config_lines, hr, hn, roleBody_eq_nil ct hcat]
  have hstr : generate_port_config p ct =
      "default interface " ++ p ++ "\n" ++ ("interface " ++ p) := by
    rw [generate_port_config, hlines, intercalate_pair]
  refine ⟨hstr, ?_⟩
  rw [hstr]
  exact append_left_ne_empty _ _
    (append_left_ne_empty _ _ (append_left_ne_empty _ _ (by decide)))

/-- Witness for C2 at role `foo` and port `Gi1/0/1`. -/
theorem unrecognized_role_renders_header_string_witness :
    "foo" ∉ roleCatalog ∧
    generate_port_config "Gi1/0/1" "foo" =
      "default interface Gi1/0/1\ninterface Gi1/0/1" := by
  have h := (unrecognized_role_renders_header_string "Gi1/0/1" "foo"
    (by decide) (by decide) (by decide)).1
  exact ⟨by decide, h.trans (by decide)⟩

/-- C3: for every port name `p` and unrecognized non-special `config_type`,
`render` emits exactly the two header lines, with no body and no trailer. -/
theorem unrecognized_role_header_only_lines (p ct : String)
    (hcat : ct ∉ roleCatalog) (hr : ct ≠ "reset") (hn : ct ≠ "none") :
    generate_port_config_lines p ct =
      ["default interface " ++ p, "interface " ++ p] := by
  simp [generate_port_config_lines, hr, hn, roleBody_eq_nil ct hcat]

/-- Witness for C3 at role `bogus_role` and port `Gi2/0/3`. -/
theorem unrecognized_role_header_only_lines_witness :
    "bogus_role" ∉ roleCatalog ∧
    generate_port_config_lines "Gi2/0/3" "bogus_role" =
      ["default interface Gi2/0/3", "interface Gi2/0/3"] := by
  have h := unrecognized_role_header_only_lines "Gi2/0/3" "bogus_role"
    (by decide) (by decide) (by decide)
  exact ⟨by decide, h.trans (by decide)⟩

/-- C4: `render(p, "reset")` emits exactly the four lines
`interface <p>` / `shutdown` / `no shutdown` / `exit`, terminated by the
standalone `!` separator line, and none of its lines is a description line
or a `switchport` VLAN assignment. -/
theorem reset_renders_bounce_sequence (p : String) :
    generate_port_config p "reset" =
      "interface " ++ p ++ "\n" ++ "shutdown" ++ "\n" ++ "no shutdown" ++
        "\n" ++ "exit" ++ "\n" ++ "!" ∧
    generate_port_config_lines p "reset" =
      ["interface " ++ p, "shutdown", "no shutdown", "exit", "!"] ∧
    ∀ l ∈ generate_port_config_lines p "reset",
      ¬ lineStartsWith l "description" ∧ ¬ lineStartsWith l "switchport" := by
  refine ⟨rfl, rfl, ?_⟩
  intro l hl
  have hlines : generate_port_config_lines p "reset" =
      ["interface " ++ p, "shutdown", "no shutdown", "exit", "!"] := rfl
  rw [hlines] at hl
  simp only [List.mem_cons, List.not_mem_nil, or_false] at hl
  rcases hl with rfl | rfl | rfl | rfl | rfl
  · exact interface_line_not_descr_vlan p
  · exact ⟨by decide, by decide⟩
  · exact ⟨by decide, by decide⟩
  · exact ⟨by decide, by decide⟩
  · exact ⟨by decide, by decide⟩

/-! ## Claims about the bulk generator -/

/-- The renderings actually emitted by the loop of `generate_cisco_code`:
the non-`none` records whose rendering is non-empty, in fetch order. -/
def renderedConfigs (ports : List PortConfig) : List String :=
  (ports.filter (fun p =>
    !(p.config_type == "none") &&
    !(generate_port_config p.port_name p.config_type == ""))).map
    (fun p => generate_port_config p.port_name p.config_type)

/-- Unfolding the generator loop: each kept record contributes its rendering
followed by one blank separator line. -/
lemma foldl_codeLinesStep (ports : List PortConfig) (acc : List String) :
    ports.foldl codeLinesStep acc =
      acc ++ ((renderedConfigs ports).map (fun c => [c, ""])).flatten := by
  induction ports generalizing acc with
  | nil => simp [renderedConfigs]
  | cons p ps ih =>
      by_cases h1 : p.config_type = "none"
      · simp [codeLinesStep, h1, ih, renderedConfigs]
      · by_cases h2 : generate_port_config p.port_name p.config_type = ""
        · simp [codeLinesStep, h1, h2, ih, renderedConfigs]
        · simp [codeLinesStep, h1, h2, ih, renderedConfigs]

/-- The `code_lines` list is the flattened record/separator structure. -/
lemma codeLines_eq (ports : List PortConfig) :
    codeLines ports = ((renderedConfigs ports).map (fun c => [c, ""])).flatten := by
  simpa using foldl_codeLinesStep ports []

/-- A non-empty record/separator structure ends with the separator. -/
lemma join_pairs_getLast (cs : List String) (h : cs ≠ []) :
    ((cs.map (fun c => [c, ""])).flatten).getLast? = some "" := by
  induction cs with
  | nil => cases h rfl
  | cons c cs ih =>
      cases cs with
      | nil => rfl
      | cons c2 cs2 =>
          rw [List.map_cons, List.flatten_cons,
            List.getLast?_append_of_ne_nil _ (by simp)]
          exact ih (by simp)

/-- C5: for a non-empty set of matching records, `GenerateCode` returns
`port_count` equal to the number of fetched records, and when every fetched
record has `config_type` `none` the rendered text is empty while the count
is still the match count. -/
theorem generate_code_counts_fetched (reg : Registry) (sn : Int) (pt : String)
    (h : fetchPorts reg sn pt ≠ []) :
    (generate_cisco_code reg sn pt).2 = (fetchPorts reg sn pt).length ∧
    ((∀ q ∈ fetchPorts reg sn pt, q.config_type = "none") →
      (generate_cisco_code reg sn pt).1 = "") := by
  have hne : (fetchPorts reg sn pt).isEmpty = false := by
    simpa [List.isEmpty_iff] using h
  constructor
  · simp [generate_cisco_code, hne]
  · intro hall
    have hrc : renderedConfigs (fetchPorts reg sn pt) = [] := by
      rw [renderedConfigs, List.filter_eq_nil_iff.mpr, List.map_nil]
      intro q hq
      simp [hall q hq]
    simp [generate_cisco_code, hne, codeLines_eq, hrc]
    rfl

/-- Registry with a single record of role `none`, for the C5 witness. -/
def wregNone : Registry :=
  [{ id := 1, switch_number := 1, port_type := "access",
     port_name := "Gi1/0/1", config_type := "none", description := none,
     created_at := 0, updated_at := 0 }]

/-- Witness for C5 on a registry whose single matching record is `none`. -/
theorem generate_code_counts_fetched_witness :
    (fetchPorts wregNone 1 "access").length = 1 ∧
    (generate_cisco_code wregNone 1 "access").2 = 1 ∧
    (generate_cisco_code wregNone 1 "access").1 = "" := by
  have h := generate_code_counts_fetched wregNone 1 "access" (by decide)
  exact ⟨by decide, h.1.trans (by decide), h.2 (by decide)⟩

/-- C6: with zero matching records, `GenerateCode` returns the sentinel
comment string and `port_count == 0` as a valid non-error result. -/
theorem generate_code_no_match_sentinel (reg : Registry) (sn : Int) (pt : String)
    (h : fetchPorts reg sn pt = []) :
    generate_cisco_code reg sn pt = ("! No configured ports found", 0) := by
  simp [generate_cisco_code, h]

/-- Witness for C6 on the empty registry. -/
theorem generate_code_no_match_sentinel_witness :
    fetchPorts ([] : Registry) 5 "access" = [] ∧
    generate_cisco_code ([] : Registry) 5 "access" =
      ("! No configured ports found", 0) :=
  ⟨rfl, generate_code_no_match_sentinel [] 5 "access" rfl⟩

/-- Registry produced by the C9 scenario's create call. -/
def c9Registry : Registry :=
  (create_port_config []
    { switch_number := 1, port_type := "access", port_name := "Gi1/0/1",
      config_type := "camera", description := none } 42 100).1

set_option maxHeartbeats 1600000 in
/-- C9: starting from an empty registry, creating `Gi1/0/1` on switch 1 as
`camera` and generating code for `(1, "access")` yields text beginning with
the five expected lines and `port_count == 1`. -/
theorem camera_example_end_to_end :
    (generate_cisco_code c9Registry 1 "access").2 = 1 ∧
    lineStartsWith (generate_cisco_code c9Registry 1 "access").1
      ("default interface Gi1/0/1\ninterface Gi1/0/1\n" ++
       "description // Camera //\nswitchport mode access\n" ++
       "switchport access vlan 5") := by decide

/-- Registry with a single `camera` record, for the C10 witness. -/
def wregCamera : Registry :=
  [{ id := 3, switch_number := 1, port_type := "access",
     port_name := "Gi1/0/1", config_type := "camera", description := none,
     created_at := 0, updated_at := 0 }]

/-- Every line of every role body is non-empty. -/
lemma roleBody_lines_ne_empty (ct : String) : ∀ l ∈ roleBody ct, l ≠ "" := by
  by_cases hct : ct ∈ roleCatalog
  · fin_cases hct <;> decide
  · rw [roleBody_eq_nil ct hct]
    simp

/-- C10: every line of a single rendering is non-empty, and the generator's
`code_lines` list is exactly each kept rendering followed by one blank
separator, so a run with at least one rendered record ends with the blank
separator and blank entries occur exactly as record separators. -/
theorem nonempty_lines_and_blank_separators :
    (∀ p ct : String, ∀ l ∈ generate_port_config_lines p ct, l ≠ "") ∧
    (∀ ports : List PortConfig,
      codeLines ports = ((renderedConfigs ports).map (fun c => [c, ""])).flatten ∧
      (renderedConfigs ports ≠ [] → (codeLines ports).getLast? = some "")) := by
  constructor
  · intro p ct l hl
    rw [generate_port_config_lines] at hl
    by_cases hres : ct = "reset"
    · rw [if_pos hres] at hl
      simp only [List.mem_cons, List.not_mem_nil, or_false] at hl
      rcases hl with rfl | rfl | rfl | rfl | rfl
      · exact append_left_ne_empty _ _ (by decide)
      all_goals decide
    · rw [if_neg hres] at hl
      rcases List.mem_append.mp hl with hmem | hmem
      · by_cases hnone : ct ≠ "none"
        · rw [if_pos hnone] at hmem
          simp only [List.mem_cons, List.not_mem_nil, or_false] at hmem
          rcases hmem with rfl | rfl <;>
            exact append_left_ne_empty _ _ (by decide)
        · rw [if_neg hnone] at hmem
          exact absurd hmem (List.not_mem_nil l)
      · exact roleBody_lines_ne_empty ct l hmem
  · intro ports
    refine ⟨codeLines_eq ports, ?_⟩
    intro hrc
    rw [codeLines_eq ports]
    exact join_pairs_getLast (renderedConfigs ports) hrc

/-- Witness for C10: a reset line is non-empty, and a one-camera-record run
ends with the blank separator. -/
theorem nonempty_lines_and_blank_separators_witness :
    ("interface Gi1/0/1" : String) ≠ "" ∧
    (codeLines wregCamera).getLast? = some "" := by
  have h := nonempty_lines_and_blank_separators
  exact ⟨h.1 "Gi1/0/1" "reset" "interface Gi1/0/1" (by decide),
    (h.2 wregCamera).2 (by decide)⟩

/-! ## Claims about the registry -/

/-- Registry for the C7 failing input: one record whose natural key matches
the update request below. -/
def c7Registry : Registry :=
  [{ id := 7, switch_number := 1, port_type := "access",
     port_name := "Gi1/0/1", config_type := "camera", description := none,
     created_at := 5, updated_at := 9 }]

/-- C7 (code bug): a record matching the natural key `("Gi1/0/1", 1)`
exists, yet an update carrying the same `config_type` and `description` at
a time equal to the stored `updated_at` reports the NotFound error: the
endpoint tests Mongo's `modified_count` — zero for a no-op `$set` — instead
of `matched_count`, so "Port not found" is raised for a port that exists. -/
theorem update_noop_reports_not_found :
    (findOneByKey c7Registry "Gi1/0/1" 1).isSome = true ∧
    (update_port_config c7Registry "Gi1/0/1" 1
      { config_type := "camera", description := none } 9).2 =
      Except.error "Port not found" :=
  ⟨rfl, rfl⟩

/-- The natural (business) key of a record. -/
def natKey (r : PortConfig) : String × Int := (r.port_name, r.switch_number)

/-- The registry invariant: at most one record per natural key. -/
abbrev UniqueKey (reg : Registry) : Prop :=
  reg.Pairwise (fun a b => natKey a ≠ natKey b)

lemma natKeyMatches_iff {r : PortConfig} {pn : String} {sn : Int} :
    natKeyMatches r pn sn = true ↔ natKey r = (pn, sn) := by
  simp [natKeyMatches, natKey, Prod.ext_iff]

lemma mem_upsert {b : PortConfig} {reg : Registry} {pn : String} {sn : Int}
    {obj : PortConfig} (h : b ∈ upsertByKey reg pn sn obj) :
    b ∈ reg ∨ b = obj := by
  induction reg with
  | nil => simpa [upsertByKey] using h
  | cons r rs ih =>
      by_cases hm : natKeyMatches r pn sn
      · rw [upsertByKey, if_pos hm] at h
        rcases List.mem_cons.mp h with rfl | hb
        · exact Or.inr rfl
        · exact Or.inl (List.mem_cons_of_mem _ hb)
      · rw [upsertByKey, if_neg hm] at h
        rcases List.mem_cons.mp h with rfl | hb
        · exact Or.inl (List.mem_cons_self _ _)
        · rcases ih hb with h1 | h1
          · exact Or.inl (List.mem_cons_of_mem _ h1)
          · exact Or.inr h1

/-- The upsert of the create endpoint preserves natural-key uniqueness. -/
lemma upsert_uniqueKey {reg : Registry} {pn : String} {sn : Int}
    {obj : PortConfig} (hobj : natKey obj = (pn, sn)) (h : UniqueKey reg) :
    UniqueKey (upsertByKey reg pn sn obj) := by
  induction reg with
  | nil => simp [upsertByKey, UniqueKey]
  | cons r rs ih =>
      obtain ⟨hr, hrs⟩ := List.pairwise_cons.mp h
      by_cases hm : natKeyMatches r pn sn
      · rw [upsertByKey, if_pos hm]
        refine List.pairwise_cons.mpr ⟨?_, hrs⟩
        intro b hb
        rw [hobj, ← natKeyMatches_iff.mp hm]
        exact hr b hb
      · rw [upsertByKey, if_neg hm]
        refine List.pairwise_cons.mpr ⟨?_, ih hrs⟩
        intro b hb
        rcases mem_upsert hb with h1 | rfl
        · exact hr b h1
        · rw [hobj]
          intro hcontra
          exact hm (natKeyMatches_iff.mpr hcontra)

/-- After an upsert on a unique-key registry, exactly one record carries the
natural key: the upserted object. -/
lemma upsert_filter_eq {reg : Registry} {pn : String} {sn : Int}
    {obj : PortConfig} (hobj : natKey obj = (pn, sn)) (h : UniqueKey reg) :
    (upsertByKey reg pn sn obj).filter (fun r => natKeyMatches r pn sn) =
      [obj] := by
  have hobjm : natKeyMatches obj pn sn = true := natKeyMatches_iff.mpr hobj
  induction reg with
  | nil => simp [upsertByKey, hobjm]
  | cons r rs ih =>
      obtain ⟨hr, hrs⟩ := List.pairwise_cons.mp h
      by_cases hm : natKeyMatches r pn sn
      · rw [upsertByKey, if_pos hm]
        have hrsnil : rs.filter (fun r => natKeyMatches r pn sn) = [] := by
          rw [List.filter_eq_nil_iff]
          intro b hb hbm
          exact hr b hb
            ((natKeyMatches_iff.mp hm).trans (natKeyMatches_iff.mp hbm).symm)
        simp [hobjm, hrsnil]
      · rw [upsertByKey, if_neg hm, List.filter_cons, if_neg hm]
        exact ih hrs

/-- After an upsert, a natural-key lookup finds the upserted object. -/
lemma find?_upsert {reg : Registry} {pn : String} {sn : Int}
    {obj : PortConfig} (hobj : natKey obj = (pn, sn)) :
    (upsertByKey reg pn sn obj).find? (fun r => natKeyMatches r pn sn) =
      some obj := by
  have hobjm : natKeyMatches obj pn sn = true := natKeyMatches_iff.mpr hobj
  induction reg with
  | nil => simp [upsertByKey, hobjm]
  | cons r rs ih =>
      by_cases hm : natKeyMatches r pn sn
      · rw [upsertByKey, if_pos hm]
        simp [hobjm]
      · rw [upsertByKey, if_neg hm]
        have hstep : (r :: upsertByKey rs pn sn obj).find?
            (fun q => natKeyMatches q pn sn) =
            (upsertByKey rs pn sn obj).find? (fun q => natKeyMatches q pn sn) :=
          List.find?_cons_of_neg _ hm
        rw [hstep]
        exact ih

/-- A targeted update rewrites a record in place without changing any
natural key. -/
lemma updateOne_natKey_map (reg : Registry) (pn : String) (sn : Int)
    (u : PortConfigUpdate) (now : Nat) :
    (updateOneByKey reg pn sn u now).1.map natKey = reg.map natKey := by
  induction reg with
  | nil => rfl
  | cons r rs ih =>
      by_cases hm : natKeyMatches r pn sn
      · rw [updateOneByKey, if_pos hm]
        simp [natKey, applyUpdate]
      · rw [updateOneByKey, if_neg hm]
        simpa using ih

/-- Natural-key uniqueness transfers along equality of key lists. -/
lemma uniqueKey_of_map_eq {reg reg' : Registry}
    (hmap : reg'.map natKey = reg.map natKey) (h : UniqueKey reg) :
    UniqueKey reg' := by
  have h1 : (reg.map natKey).Pairwise (fun a b => a ≠ b) :=
    List.pairwise_map.mpr h
  rw [← hmap] at h1
  exact List.pairwise_map.mp h1

/-- The update endpoint preserves natural-key uniqueness. -/
lemma update_uniqueKey (reg : Registry) (pn : String) (sn : Int)
    (u : PortConfigUpdate) (now : Nat) (h : UniqueKey reg) :
    UniqueKey (update_port_config reg pn sn u now).1 := by
  rw [update_port_config]
  by_cases hz : (updateOneByKey reg pn sn u now).2 = 0
  · simpa [hz] using h
  · have hu := uniqueKey_of_map_eq (updateOne_natKey_map reg pn sn u now) h
    cases hfind : findOneByKey (updateOneByKey reg pn sn u now).1 pn sn <;>
      simpa [hz, hfind] using hu

/-- C8: the natural-key invariant is preserved by create (twice in a row),
update and bulk delete, and two consecutive creates with identical input
leave exactly one stored record for the key — the second call's object,
with the fresh surrogate id and created-at timestamp. -/
theorem natural_key_unique_and_replaced (reg : Registry)
    (inp : PortConfigCreate) (id1 t1 id2 t2 : Nat) (pn : String) (sn : Int)
    (u : PortConfigUpdate) (now : Nat) (osn : Option Int)
    (hU : UniqueKey reg) :
    UniqueKey (create_port_config reg inp id1 t1).1 ∧
    UniqueKey
      (create_port_config (create_port_config reg inp id1 t1).1 inp id2 t2).1 ∧
    UniqueKey (update_port_config reg pn sn u now).1 ∧
    UniqueKey (reset_all_ports reg osn).1 ∧
    ((create_port_config (create_port_config reg inp id1 t1).1 inp id2 t2).1.filter
        (fun r => natKeyMatches r inp.port_name inp.switch_number)) =
      [(create_port_config (create_port_config reg inp id1 t1).1 inp id2 t2).2] ∧
    findOneByKey
        (create_port_config (create_port_config reg inp id1 t1).1 inp id2 t2).1
        inp.port_name inp.switch_number =
      some (create_port_config (create_port_config reg inp id1 t1).1 inp id2 t2).2 ∧
    (create_port_config (create_port_config reg inp id1 t1).1 inp id2 t2).2.id
      = id2 ∧
    (create_port_config (create_port_config reg inp id1 t1).1 inp id2 t2).2.created_at
      = t2 ∧
    (create_port_config (create_port_config reg inp id1 t1).1 inp id2 t2).2.config_type
      = inp.config_type ∧
    (create_port_config (create_port_config reg inp id1 t1).1 inp id2 t2).2.description
      = inp.description := by
  have hobj1 : natKey (create_port_config reg inp id1 t1).2 =
      (inp.port_name, inp.switch_number) := rfl
  have hobj2 : natKey
      (create_port_config (create_port_config reg inp id1 t1).1 inp id2 t2).2 =
      (inp.port_name, inp.switch_number) := rfl
  have h1 : UniqueKey (create_port_config reg inp id1 t1).1 :=
    upsert_uniqueKey hobj1 hU
  have h2 : UniqueKey
      (create_port_config (create_port_config reg inp id1 t1).1 inp id2 t2).1 :=
    upsert_uniqueKey hobj2 h1
  refine ⟨h1, h2, update_uniqueKey reg pn sn u now hU,
    (hU.sublist (List.filter_sublist reg)), upsert_filter_eq hobj2 h1,
    find?_upsert hobj2, rfl, rfl, rfl, rfl⟩

/-- Input record for the C8 witness. -/
def c8Input : PortConfigCreate :=
  { switch_number := 1, port_type := "access", port_name := "Gi1/0/1",
    config_type := "camera", description := some "cam" }

/-- Witness for C8: two creates with identical input on the empty registry
leave exactly one record for the key, carrying the second call's id and
timestamp. -/
theorem natural_key_unique_and_replaced_witness :
    UniqueKey ([] : Registry) ∧
    ((create_port_config (create_port_config [] c8Input 1 10).1 c8Input 2 20).1.filter
        (fun r => natKeyMatches r c8Input.port_name c8Input.switch_number)) =
      [(create_port_config (create_port_config [] c8Input 1 10).1 c8Input 2 20).2] ∧
    (create_port_config (create_port_config [] c8Input 1 10).1 c8Input 2 20).2.id
      = 2 ∧
    (create_port_config (create_port_config [] c8Input 1 10).1 c8Input 2 20).2.created_at
      = 20 := by
  have h := natural_key_unique_and_replaced [] c8Input 1 10 2 20 "x" 0
    { config_type := "a", description := none } 0 none List.Pairwise.nil
  exact ⟨List.Pairwise.nil, h.2.2.2.2.1, h.2.2.2.2.2.2.1, h.2.2.2.2.2.2.2.1⟩

end SwitchConfig
